import Mathlib

/-!
Verification of the sync-drive repository (one-way Google Drive → Instill
Catalog synchronizer).  The definitions below are a shallow embedding of
`src/helpers.py`, `src/main.py` and `src/script.py`: Python dictionaries and
JSON values become an inductive `Json` type, the three ledger files and the
checkpoint file become explicit state, exceptions become `Except PyErr`, and
the external collaborators (Drive listing/metadata/download, the two catalog
HTTP endpoints) become oracle functions supplied as input.
-/

/-- Python exception classes that the embedded code can raise or observe. -/
inductive PyErr
  | nameError        -- NameError / UnboundLocalError
  | attributeError
  | indexError
  | keyError
  | typeError
  | httpError        -- requests.HTTPError from raise_for_status
  | requestException -- transport-level failure of the HTTP request itself
  | apiError         -- generic exception raised by an external collaborator
  deriving DecidableEq

/-- JSON values, as produced by `response.json()`. -/
inductive Json
  | null
  | bool (b : Bool)
  | str (s : String)
  | num (n : Int)
  | arr (xs : List Json)
  | obj (fields : List (String × Json))

/-- Python truthiness of a JSON value (`if not x` tests `truthy x = false`). -/
def Json.truthy : Json → Bool
  | .null => false
  | .bool b => b
  | .str s => !s.isEmpty
  | .num n => n != 0
  | .arr xs => !xs.isEmpty
  | .obj fs => !fs.isEmpty

/-- Python `x.get(key, default)`: only dictionaries have a `get` attribute;
on any other value the attribute access raises `AttributeError`. -/
def Json.get (j : Json) (key : String) (dflt : Json) : Except PyErr Json :=
  match j with
  | .obj fields => .ok ((fields.lookup key).getD dflt)
  | _ => .error .attributeError

/-- Python `x[0]`: first element of a list (IndexError when empty), first
character of a string (IndexError when empty), `KeyError` on a dictionary
whose keys are strings, `TypeError` on values that are not subscriptable. -/
def Json.index0 : Json → Except PyErr Json
  | .arr [] => .error .indexError
  | .arr (x :: _) => .ok x
  | .str s => if s.isEmpty then .error .indexError else .ok (.str (String.singleton s.front))
  | .obj _ => .error .keyError
  | _ => .error .typeError

/-- Outcome of one HTTP exchange: the status code and the parsed JSON body. -/
structure HttpResponse where
  status : Nat
  body : Json

/-- helpers.py `call_catalog_api`: performs the request, then
`response.raise_for_status()` (which raises `HTTPError` for 4xx/5xx status
codes) and finally returns `response.json()`.  The HTTP exchange itself is
the input. -/
def call_catalog_api (resp : HttpResponse) : Except PyErr Json :=
  if 400 ≤ resp.status ∧ resp.status < 600 then .error .httpError
  else .ok resp.body

namespace Script

/-- script.py `call_catalog_api`: dispatches on the method name, returns
`response.json()` directly and never calls `raise_for_status`; an unknown
method leaves `response` unbound and raises `UnboundLocalError`. -/
def call_catalog_api (method : String) (resp : HttpResponse) : Except PyErr Json :=
  if method = "GET" ∨ method = "POST" ∨ method = "PUT" ∨ method = "DELETE"
  then .ok resp.body
  else .error .nameError

end Script

/-- The static MIME-type table of helpers.py `get_file_type`
(`mime_type_to_file_type`), in source order. -/
def mime_type_to_file_type : List (String × String) :=
  [("application/pdf", "FILE_TYPE_PDF"),
   ("text/plain", "FILE_TYPE_TEXT"),
   ("text/markdown", "FILE_TYPE_MARKDOWN"),
   ("image/png", "FILE_TYPE_PNG"),
   ("image/jpeg", "FILE_TYPE_JPEG"),
   ("image/jpg", "FILE_TYPE_JPG"),
   ("text/html", "FILE_TYPE_HTML"),
   ("application/vnd.openxmlformats-officedocument.wordprocessingml.document", "FILE_TYPE_DOCX"),
   ("application/msword", "FILE_TYPE_DOC"),
   ("application/vnd.ms-powerpoint", "FILE_TYPE_PPT"),
   ("application/vnd.openxmlformats-officedocument.presentationml.presentation", "FILE_TYPE_PPTX"),
   ("application/vnd.ms-excel", "FILE_TYPE_XLS"),
   ("application/vnd.openxmlformats-officedocument.spreadsheetml.sheet", "FILE_TYPE_XLSX")]

/-- helpers.py `get_file_type`: `mime_type_to_file_type.get(mime_type, "none")`. -/
def get_file_type (mime_type : String) : String :=
  (mime_type_to_file_type.lookup mime_type).getD "none"

/-- helpers.py `load_uploaded_files`: the ledger file is either absent
(`none`, function returns `[]`) or holds `{"data": [ids...]}`. -/
def load_uploaded_files (file : Option (List String)) : List String :=
  file.getD []

/-- helpers.py `save_uploaded_files`: writes `{"data": uploaded_files}`,
so afterwards the file exists and holds the given list. -/
def save_uploaded_files (uploaded_files : List String) : Option (List String) :=
  some uploaded_files

/-- helpers.py `append_file_id`: load the list, append `file_id` only if it
is not already present, and unconditionally save the result. -/
def append_file_id (file_id : String) (file : Option (List String)) : Option (List String) :=
  let uploaded_files := load_uploaded_files file
  save_uploaded_files (if file_id ∈ uploaded_files then uploaded_files else uploaded_files ++ [file_id])

/-- helpers.py `read_modified_time_from_file`: `none` when the checkpoint
file does not exist, otherwise its (stripped) contents. -/
def read_modified_time_from_file (store : Option String) : Option String :=
  store

/-- helpers.py `save_modified_time_to_file`: overwrites the checkpoint file. -/
def save_modified_time_to_file (modified_time : String) (_store : Option String) : Option String :=
  some modified_time

/-- Python falsiness of the value returned by `read_modified_time_from_file`:
`None` and the empty string are falsy. -/
def strFalsy : Option String → Bool
  | none => true
  | some s => s.isEmpty

/-- main.py lines 47–52: read the checkpoint; if it is falsy, use the current
time (`now`) as the query bound and save it to the checkpoint file.  Returns
the effective query bound together with the checkpoint store after the step. -/
def resolveCheckpoint (now : String) (store : Option String) : String × Option String :=
  let q := read_modified_time_from_file store
  if strFalsy q then (now, save_modified_time_to_file now store)
  else (q.getD "", store)

/-- Python `s.startswith(pre)`, modelled as a character-list prefix test
(equivalent to the byte-level check and fully computable in the kernel). -/
def startswith (s pre : String) : Bool :=
  pre.data.isPrefixOf s.data

/-- A file descriptor as returned by the Drive listing (`files(id, name, ...)`). -/
structure Item where
  id : String
  name : String
  deriving DecidableEq

/-- External collaborators of one run, as oracles: the Drive listing (keyed by
the query bound), the per-file metadata fetch, the per-file content download,
and the HTTP exchanges of the two catalog endpoints.  An `.error` result
models the Python call raising an exception. -/
structure Remote where
  listing : String → Except PyErr (List Item)
  metadata : String → Except PyErr (String × String)  -- fileId ↦ (mimeType, name)
  download : String → Except PyErr Unit
  uploadHttp : String → Except PyErr HttpResponse     -- keyed by fileId
  processHttp : Json → Except PyErr HttpResponse      -- keyed by the fileUid sent

/-- The three persisted ledger files (`none` = file does not exist yet). -/
structure Ledgers where
  uploadedFile : Option (List String)
  failedFile : Option (List String)
  unsupportedFile : Option (List String)
  deriving DecidableEq

/-- State threaded through the per-file loop of main.py: the ledger files, the
set of local transient files on disk, and the Python locals `file_name` and
`local_file_name`, which are unbound (`none`) until first assigned and keep
their value across loop iterations. -/
structure LoopState where
  ledgers : Ledgers
  disk : List String
  fileName : Option String
  localFileName : Option String
  deriving DecidableEq

/-- Which ledger file an id is appended to. -/
inductive LedgerName
  | uploaded
  | failed
  | unsupported
  deriving DecidableEq

/-- Observable actions of the pipeline, in execution order. -/
inductive Event
  | listFiles (query : String)
  | fetchMeta (id : String)
  | createLocal (path : String)
  | deleteLocal (path : String)
  | callUpload (id : String)
  | callProcess
  | appendLedger (set : LedgerName) (id : String)
  deriving DecidableEq

/-- The outcome of one per-file loop iteration.  `failedException` is the
generic `except` branch; `aborted` means an exception escaped the per-file
boundary (possible when the handler itself raises). -/
inductive Outcome
  | skippedUploaded
  | skippedFolder
  | unsupported
  | failedUpload
  | failedProcessing
  | uploadedOk
  | failedException (e : PyErr)
  | aborted (e : PyErr)
  deriving DecidableEq

/-- True exactly on `aborted` outcomes. -/
def Outcome.isAborted : Outcome → Bool
  | .aborted _ => true
  | _ => false

/-- The per-file `except Exception` handler of main.py: it first logs an
f-string mentioning `file_name`, then tests `os.path.exists(local_file_name)`
and removes the file.  If either local is still unbound, the f-string raises
`NameError` (UnboundLocalError) inside the handler and the exception escapes
the per-file loop. -/
def handleItemError (st : LoopState) (e : PyErr) : Outcome × LoopState × List Event :=
  match st.fileName with
  | none => (.aborted .nameError, st, [])
  | some _ =>
    match st.localFileName with
    | none => (.aborted .nameError, st, [])
    | some lfn =>
      if lfn ∈ st.disk then
        (.failedException e, { st with disk := st.disk.filter (· ≠ lfn) }, [.deleteLocal lfn])
      else
        (.failedException e, st, [])

/-- main.py `uploaded_file.get("file", {}).get("fileUid", None)`. -/
def extractFileUid (uploaded_file : Json) : Except PyErr Json := do
  let f ← uploaded_file.get "file" (.obj [])
  f.get "fileUid" .null

/-- main.py `process_data.get("files", [{}])[0].get("processStatus", None)`. -/
def extractProcessStatus (process_data : Json) : Except PyErr Json := do
  let files ← process_data.get "files" (.arr [.obj []])
  let first ← files.index0
  first.get "processStatus" .null

/-- Prepend already-emitted events to the result of a continuation. -/
def withEvents (pre : List Event) (r : Outcome × LoopState × List Event) :
    Outcome × LoopState × List Event :=
  (r.1, r.2.1, pre ++ r.2.2)

/-- The body of the per-file loop of main.py (and, identically, of script.py),
parameterized by the `call_catalog_api` implementation the two entry points
differ in.  Follows the source line by line: skip when already uploaded; fetch
metadata; folder short-circuit; editor documents get a `.pdf` local name and
their MIME type reassigned to `application/pdf`; unsupported types are
appended to the Unsupported ledger; otherwise the local file is created,
downloaded, uploaded and processed, with the exact append/delete order of the
source in each branch; any raised exception lands in `handleItemError`. -/
def processItemWith (call : HttpResponse → Except PyErr Json)
    (rem : Remote) (st : LoopState) (item : Item) : Outcome × LoopState × List Event :=
  let file_id := item.id
  if file_id ∈ load_uploaded_files st.ledgers.uploadedFile then
    (.skippedUploaded, st, [])
  else
    match rem.metadata file_id with
    | .error e => withEvents [.fetchMeta file_id] (handleItemError st e)
    | .ok (mimeType0, file_name) =>
      let isEditor := startswith mimeType0 "application/vnd.google-apps."
      let local_file_name := if isEditor then file_name ++ ".pdf" else file_name
      let st1 := { st with fileName := some file_name, localFileName := some local_file_name }
      if mimeType0 = "application/vnd.google-apps.folder" then
        (.skippedFolder, st1, [.fetchMeta file_id])
      else
        let mime_type := if isEditor then "application/pdf" else mimeType0
        let file_type := get_file_type mime_type
        if file_type = "none" then
          (.unsupported,
            { st1 with ledgers :=
                { st1.ledgers with unsupportedFile := append_file_id file_id st1.ledgers.unsupportedFile } },
            [.fetchMeta file_id, .appendLedger .unsupported file_id])
        else
          let st2 := { st1 with disk :=
            if local_file_name ∈ st1.disk then st1.disk else local_file_name :: st1.disk }
          let evs0 : List Event := [.fetchMeta file_id, .createLocal local_file_name]
          match rem.download file_id with
          | .error e => withEvents evs0 (handleItemError st2 e)
          | .ok _ =>
            match rem.uploadHttp file_id with
            | .error e => withEvents (evs0 ++ [.callUpload file_id]) (handleItemError st2 e)
            | .ok resp =>
              match call resp with
              | .error e => withEvents (evs0 ++ [.callUpload file_id]) (handleItemError st2 e)
              | .ok uploaded_file =>
                match extractFileUid uploaded_file with
                | .error e => withEvents (evs0 ++ [.callUpload file_id]) (handleItemError st2 e)
                | .ok file_uid =>
                  if file_uid.truthy = false then
                    (.failedUpload,
                      { st2 with
                        ledgers := { st2.ledgers with
                          failedFile := append_file_id file_id st2.ledgers.failedFile },
                        disk := st2.disk.filter (· ≠ local_file_name) },
                      evs0 ++ [.callUpload file_id, .appendLedger .failed file_id,
                               .deleteLocal local_file_name])
                  else
                    match rem.processHttp file_uid with
                    | .error e =>
                      withEvents (evs0 ++ [.callUpload file_id, .callProcess]) (handleItemError st2 e)
                    | .ok presp =>
                      match call presp with
                      | .error e =>
                        withEvents (evs0 ++ [.callUpload file_id, .callProcess]) (handleItemError st2 e)
                      | .ok process_data =>
                        match extractProcessStatus process_data with
                        | .error e =>
                          withEvents (evs0 ++ [.callUpload file_id, .callProcess]) (handleItemError st2 e)
                        | .ok process_status =>
                          if process_status.truthy = false then
                            (.failedProcessing,
                              { st2 with
                                ledgers := { st2.ledgers with
                                  failedFile := append_file_id file_id st2.ledgers.failedFile },
                                disk := st2.disk.filter (· ≠ local_file_name) },
                              evs0 ++ [.callUpload file_id, .callProcess,
                                       .appendLedger .failed file_id, .deleteLocal local_file_name])
                          else
                            (.uploadedOk,
                              { st2 with
                                ledgers := { st2.ledgers with
                                  uploadedFile := append_file_id file_id st2.ledgers.uploadedFile },
                                disk := st2.disk.filter (· ≠ local_file_name) },
                              evs0 ++ [.callUpload file_id, .callProcess,
                                       .deleteLocal local_file_name, .appendLedger .uploaded file_id])

/-- The per-file loop body of main.py, which uses helpers.py `call_catalog_api`. -/
def processItem : Remote → LoopState → Item → Outcome × LoopState × List Event :=
  processItemWith call_catalog_api

namespace Script

/-- The per-file loop body of script.py, which uses script.py's own
`call_catalog_api`; both pipeline calls pass method `'POST'`. -/
def processItem : Remote → LoopState → Item → Outcome × LoopState × List Event :=
  processItemWith (Script.call_catalog_api "POST")

end Script

/-- The per-file loop of main.py over a list of descriptors: iterate
`processItem`, stopping early (with the escaped exception) when an iteration
aborts. -/
def runItems (rem : Remote) : List Item → LoopState →
    LoopState × List Outcome × List Event × Option PyErr
  | [], st => (st, [], [], none)
  | item :: rest, st =>
    match processItem rem st item with
    | (oc, st', evs) =>
      if oc.isAborted then (st', [oc], evs, match oc with | .aborted e => some e | _ => none)
      else
        match runItems rem rest st' with
        | (stf, ocs, evs2, ab) => (stf, oc :: ocs, evs ++ evs2, ab)

/-- Persistent state a run starts from: the checkpoint file, the three ledger
files and the local directory contents. -/
structure RunState where
  checkpoint : Option String
  ledgers : Ledgers
  disk : List String
  deriving DecidableEq

/-- One invocation of main.py `main()` after authentication, with `now` the
value `get_current_time_formatted()` would return: resolve the checkpoint
(saving "now" when the store is falsy), list remote files with the effective
bound, return early when the listing is empty, else run the per-file loop.
The returned `Bool` is true when the outer `except` fired, i.e. when the code
recursively restarts the whole run (listing exception, or an exception that
escaped the per-file loop). -/
def mainRun (rem : Remote) (now : String) (rs : RunState) :
    Bool × RunState × List Outcome × List Event :=
  let qcp := resolveCheckpoint now rs.checkpoint
  match rem.listing qcp.1 with
  | .error _ => (true, { rs with checkpoint := qcp.2 }, [], [.listFiles qcp.1])
  | .ok items =>
    if items.isEmpty then
      (false, { rs with checkpoint := qcp.2 }, [], [.listFiles qcp.1])
    else
      let st0 : LoopState :=
        { ledgers := rs.ledgers, disk := rs.disk, fileName := none, localFileName := none }
      match runItems rem items st0 with
      | (st', ocs, evs, ab) =>
        (ab.isSome,
         { checkpoint := qcp.2, ledgers := st'.ledgers, disk := st'.disk },
         ocs, .listFiles qcp.1 :: evs)

/-- True when, scanning the event list left to right, every `deleteLocal` is
preceded by some earlier `appendLedger`: the formalization of "the local file
is never deleted before a ledger outcome has been recorded". -/
def ledgerRecordedBeforeDeletesAux : Bool → List Event → Bool
  | _, [] => true
  | _, .appendLedger _ _ :: rest => ledgerRecordedBeforeDeletesAux true rest
  | recorded, .deleteLocal _ :: rest =>
    recorded && ledgerRecordedBeforeDeletesAux recorded rest
  | recorded, _ :: rest => ledgerRecordedBeforeDeletesAux recorded rest

/-- Every `deleteLocal` event in the list is preceded by an `appendLedger`. -/
def ledgerRecordedBeforeDeletes (evs : List Event) : Bool :=
  ledgerRecordedBeforeDeletesAux false evs

/-- Ledger state in which none of the three files exists yet. -/
def emptyLedgers : Ledgers :=
  { uploadedFile := none, failedFile := none, unsupportedFile := none }

/-- Loop state at the start of a run: given ledgers, empty local directory,
and both Python locals still unbound. -/
def initLoopState (lg : Ledgers) : LoopState :=
  { ledgers := lg, disk := [], fileName := none, localFileName := none }

/-- Upload response body carrying a resolvable fileUid. -/
def okUploadBody : Json := .obj [("file", .obj [("fileUid", .str "u1")])]

/-- Processing response body carrying a non-empty processStatus. -/
def okProcessBody : Json := .obj [("files", .arr [.obj [("processStatus", .str "done")]])]

/-- A fully successful environment: one plain PDF file `f1`, all calls
succeed with well-formed 200 responses. -/
def happyRemote : Remote where
  listing := fun _ => .ok [{ id := "f1", name := "report" }]
  metadata := fun _ => .ok ("application/pdf", "report")
  download := fun _ => .ok ()
  uploadHttp := fun _ => .ok { status := 200, body := okUploadBody }
  processHttp := fun _ => .ok { status := 200, body := okProcessBody }

set_option maxRecDepth 100000

/-- Helper: `List.lookup` misses every key that is not in the key column. -/
theorem lookup_eq_none_of_not_mem_keys {β : Type} (l : List (String × β)) (a : String)
    (h : a ∉ l.map Prod.fst) : l.lookup a = none := by
  induction l with
  | nil => rfl
  | cons p rest ih =>
    obtain ⟨k, v⟩ := p
    simp only [List.map_cons, List.mem_cons, not_or] at h
    have hk : (a == k) = false := beq_eq_false_iff_ne.mpr h.1
    simp [List.lookup, hk, ih h.2]

/-- C7: the type classifier is a pure total function over the fixed static
table: every MIME type outside the table's key set maps to the unsupported
marker `"none"`, and each of the twelve enumerated entries maps to its
defined catalog type (the source table also carries a thirteenth entry,
`image/jpg`). -/
theorem get_file_type_classifier_total :
    (∀ s : String, s ∉ mime_type_to_file_type.map Prod.fst → get_file_type s = "none")
    ∧ get_file_type "application/pdf" = "FILE_TYPE_PDF"
    ∧ get_file_type "text/plain" = "FILE_TYPE_TEXT"
    ∧ get_file_type "text/markdown" = "FILE_TYPE_MARKDOWN"
    ∧ get_file_type "image/png" = "FILE_TYPE_PNG"
    ∧ get_file_type "image/jpeg" = "FILE_TYPE_JPEG"
    ∧ get_file_type "text/html" = "FILE_TYPE_HTML"
    ∧ get_file_type "application/vnd.openxmlformats-officedocument.wordprocessingml.document"
        = "FILE_TYPE_DOCX"
    ∧ get_file_type "application/msword" = "FILE_TYPE_DOC"
    ∧ get_file_type "application/vnd.ms-powerpoint" = "FILE_TYPE_PPT"
    ∧ get_file_type "application/vnd.openxmlformats-officedocument.presentationml.presentation"
        = "FILE_TYPE_PPTX"
    ∧ get_file_type "application/vnd.ms-excel" = "FILE_TYPE_XLS"
    ∧ get_file_type "application/vnd.openxmlformats-officedocument.spreadsheetml.sheet"
        = "FILE_TYPE_XLSX" := by
  refine ⟨fun s hs => ?_, rfl, rfl, rfl, rfl, rfl, rfl, rfl, rfl, rfl, rfl, rfl, rfl⟩
  unfold get_file_type
  rw [lookup_eq_none_of_not_mem_keys _ _ hs]
  rfl

/-- Witness for C7 at a concrete MIME type outside the table. -/
theorem get_file_type_classifier_total_witness :
    get_file_type "application/zip" = "none" :=
  get_file_type_classifier_total.1 "application/zip" (by decide)

/-- C6: ledger append is idempotent and duplicate-suppressing: appending an
id twice equals appending it once (so the size is unchanged after the first
append), the id is a member afterwards, the existing ids keep their insertion
order as a prefix of the result, an absent id is added at the end, and the
result is always a written (persisted) file. -/
theorem append_file_id_idempotent_ordered (file_id : String) (file : Option (List String)) :
    append_file_id file_id (append_file_id file_id file) = append_file_id file_id file
    ∧ (load_uploaded_files (append_file_id file_id (append_file_id file_id file))).length
        = (load_uploaded_files (append_file_id file_id file)).length
    ∧ file_id ∈ load_uploaded_files (append_file_id file_id file)
    ∧ (load_uploaded_files (append_file_id file_id file)).take
        (load_uploaded_files file).length = load_uploaded_files file
    ∧ (file_id ∉ load_uploaded_files file →
        load_uploaded_files (append_file_id file_id file)
          = load_uploaded_files file ++ [file_id])
    ∧ (append_file_id file_id file).isSome = true := by
  unfold append_file_id save_uploaded_files load_uploaded_files
  by_cases h : file_id ∈ file.getD []
  · simp [h]
  · simp [h]

/-- Witness for C6: appending the absent id "b" to the ledger `["a"]` adds it
at the end, and appending it a second time changes nothing. -/
theorem append_file_id_idempotent_ordered_witness :
    append_file_id "b" (append_file_id "b" (some ["a"])) = append_file_id "b" (some ["a"])
    ∧ load_uploaded_files (append_file_id "b" (some ["a"]))
        = load_uploaded_files (some ["a"]) ++ ["b"] :=
  ⟨(append_file_id_idempotent_ordered "b" (some ["a"])).1,
   (append_file_id_idempotent_ordered "b" (some ["a"])).2.2.2.2.1 (by decide)⟩

/-- C9 counterexample: on a 500 response with a JSON body the helpers.py
variant raises `HTTPError` (it calls `raise_for_status`) while the script.py
variant returns the parsed body, so the two `call_catalog_api`
implementations are not behaviorally equivalent for non-2xx responses. -/
theorem call_catalog_api_variants_counterexample :
    call_catalog_api { status := 500, body := .obj [] } = .error .httpError
    ∧ Script.call_catalog_api "POST" { status := 500, body := .obj [] } = .ok (.obj [])
    ∧ call_catalog_api { status := 500, body := .obj [] }
        ≠ Script.call_catalog_api "POST" { status := 500, body := .obj [] } :=
  ⟨rfl, rfl, fun h => Except.noConfusion h⟩

/-- States that every catalog HTTP exchange an environment can produce has a
non-error status code (outside 400–599). -/
def goodStatuses (rem : Remote) : Prop :=
  (∀ id resp, rem.uploadHttp id = .ok resp → resp.status < 400)
  ∧ (∀ uid resp, rem.processHttp uid = .ok resp → resp.status < 400)

/-- Helper for C9: the per-file loop body only depends on the
`call_catalog_api` implementation at the responses the environment actually
produces, so two implementations agreeing there give equal pipelines. -/
theorem processItemWith_congr (c₁ c₂ : HttpResponse → Except PyErr Json)
    (rem : Remote) (st : LoopState) (item : Item)
    (hup : ∀ resp, rem.uploadHttp item.id = .ok resp → c₁ resp = c₂ resp)
    (hpr : ∀ uid resp, rem.processHttp uid = .ok resp → c₁ resp = c₂ resp) :
    processItemWith c₁ rem st item = processItemWith c₂ rem st item := by
  unfold processItemWith
  by_cases hskip : item.id ∈ load_uploaded_files st.ledgers.uploadedFile
  · simp only [if_pos hskip]
  · simp only [if_neg hskip]
    rcases hmeta : rem.metadata item.id with e | ⟨mt, fn⟩ <;> simp only []
    by_cases hfold : mt = "application/vnd.google-apps.folder"
    · simp only [if_pos hfold]
    · simp only [if_neg hfold]
      by_cases htype :
          get_file_type (if startswith mt "application/vnd.google-apps."
            then "application/pdf" else mt) = "none"
      · simp only [if_pos htype]
      · simp only [if_neg htype]
        rcases hdl : rem.download item.id with e | u <;> simp only []
        rcases hu : rem.uploadHttp item.id with e | resp <;> simp only []
        rw [hup resp hu]
        rcases hc : c₂ resp with e | body <;> simp only []
        rcases hx : extractFileUid body with e | uid <;> simp only []
        by_cases huid : uid.truthy = false
        · simp only [if_pos huid]
        · simp only [if_neg huid]
          rcases hp : rem.processHttp uid with e | presp <;> simp only []
          rw [hpr uid presp hp]

/-- C9 amended: the two `call_catalog_api` variants agree on every response
with a non-error status code; on 4xx/5xx responses they diverge (helpers.py
raises `HTTPError`, script.py returns the parsed body); consequently the two
copy-pasted per-file pipelines compute the same result exactly in
environments where every catalog HTTP exchange has a non-error status. -/
theorem pipeline_variants_equiv_on_ok_statuses :
    (∀ resp : HttpResponse, resp.status < 400 →
      Script.call_catalog_api "POST" resp = call_catalog_api resp)
    ∧ (∀ resp : HttpResponse, 400 ≤ resp.status → resp.status < 600 →
      call_catalog_api resp = .error .httpError
      ∧ Script.call_catalog_api "POST" resp = .ok resp.body)
    ∧ (∀ rem st item, goodStatuses rem →
      Script.processItem rem st item = processItem rem st item) := by
  have hcall : ∀ resp : HttpResponse, resp.status < 400 →
      Script.call_catalog_api "POST" resp = call_catalog_api resp := by
    intro resp h
    simp [Script.call_catalog_api, call_catalog_api, Nat.not_le_of_lt h]
  refine ⟨hcall, ?_, ?_⟩
  · intro resp h4 h6
    constructor
    · simp [call_catalog_api, h4, h6]
    · simp [Script.call_catalog_api]
  · intro rem st item hgood
    unfold Script.processItem processItem
    exact processItemWith_congr _ _ rem st item
      (fun resp h => hcall resp (hgood.1 item.id resp h))
      (fun uid resp h => hcall resp (hgood.2 uid resp h))

/-- Witness for C9 amended: a concrete 200 response on which the two variants
agree, a concrete 500 response on which they diverge as described, and the
concrete fully-successful environment on which the two pipelines coincide. -/
theorem pipeline_variants_equiv_witness :
    Script.call_catalog_api "POST" { status := 200, body := okUploadBody }
      = call_catalog_api { status := 200, body := okUploadBody }
    ∧ (call_catalog_api { status := 404, body := .null } = .error .httpError
       ∧ Script.call_catalog_api "POST" { status := 404, body := .null } = .ok .null)
    ∧ Script.processItem happyRemote (initLoopState emptyLedgers) { id := "f1", name := "report" }
        = processItem happyRemote (initLoopState emptyLedgers) { id := "f1", name := "report" } :=
  ⟨pipeline_variants_equiv_on_ok_statuses.1 _ (by decide),
   pipeline_variants_equiv_on_ok_statuses.2.1 _ (by decide) (by decide),
   pipeline_variants_equiv_on_ok_statuses.2.2 _ _ _
     ⟨fun _ resp h => by cases h; decide, fun _ resp h => by cases h; decide⟩⟩

/-- An environment whose listing succeeds with no files and whose other
collaborators all raise; used to exercise only the checkpoint logic. -/
def noFilesRemote : Remote where
  listing := fun _ => .ok []
  metadata := fun _ => .error .apiError
  download := fun _ => .error .apiError
  uploadHttp := fun _ => .error .requestException
  processHttp := fun _ => .error .requestException

/-- C1 counterexample: starting a run with the checkpoint store absent, the
orchestrator saves the computed "now" to the store (main.py line 52 calls
`save_modified_time_to_file`), so a checkpoint read after the run returns the
computed time, not absent. -/
theorem checkpoint_persisted_counterexample :
    read_modified_time_from_file
        (mainRun noFilesRemote "2024-01-01T00:00:00.000Z"
          { checkpoint := none, ledgers := emptyLedgers, disk := [] }).2.1.checkpoint
      = some "2024-01-01T00:00:00.000Z"
    ∧ read_modified_time_from_file
        (mainRun noFilesRemote "2024-01-01T00:00:00.000Z"
          { checkpoint := none, ledgers := emptyLedgers, disk := [] }).2.1.checkpoint
      ≠ none :=
  ⟨rfl, fun h => Option.noConfusion h⟩

/-- C1 amended: when the checkpoint store yields absent at run start, the
orchestrator computes the current time, uses it as the effective checkpoint
of the run (the listing is queried with it), and also persists it: after the
run the store holds that time instead of remaining absent. -/
theorem checkpoint_initialized_and_persisted (rem : Remote) (now : String)
    (lg : Ledgers) (dk : List String) :
    (mainRun rem now { checkpoint := none, ledgers := lg, disk := dk }).2.1.checkpoint = some now
    ∧ Event.listFiles now
        ∈ (mainRun rem now { checkpoint := none, ledgers := lg, disk := dk }).2.2.2 := by
  unfold mainRun
  have hq : resolveCheckpoint now (none : Option String) = (now, some now) := rfl
  simp only [hq]
  rcases h : rem.listing now with e | items <;> simp only []
  · simp
  · by_cases he : items.isEmpty
    · simp [he]
    · rcases hr : runItems rem items
          { ledgers := lg, disk := dk, fileName := none, localFileName := none }
        with ⟨st', ocs, evs, ab⟩
      simp [he, hr]

/-- Helper: a descriptor whose id is already in the Uploaded ledger is skipped
before any metadata fetch, download, upload or trigger: the iteration leaves
the state untouched and emits no events. -/
theorem processItem_skip_already_uploaded (rem : Remote) (st : LoopState) (item : Item)
    (h : item.id ∈ load_uploaded_files st.ledgers.uploadedFile) :
    processItem rem st item = (.skippedUploaded, st, []) := by
  show processItemWith call_catalog_api rem st item = _
  unfold processItemWith
  simp [h]

/-- Helper: the per-file loop over descriptors that are all in the Uploaded
ledger produces only Skipped outcomes, no events, and an unchanged state. -/
theorem runItems_all_skip (rem : Remote) (items : List Item) (st : LoopState)
    (h : ∀ it ∈ items, it.id ∈ load_uploaded_files st.ledgers.uploadedFile) :
    runItems rem items st = (st, items.map fun _ => .skippedUploaded, [], none) := by
  induction items with
  | nil => rfl
  | cons it rest ih =>
    unfold runItems
    rw [processItem_skip_already_uploaded rem st it (h it (List.mem_cons_self it rest))]
    simp only [Outcome.isAborted, if_neg Bool.false_ne_true]
    rw [ih (fun x hx => h x (List.mem_cons_of_mem it hx))]
    simp

/-- C5: re-running the orchestrator when every listed id is already in the
Uploaded set is a no-op: every descriptor is skipped before any metadata
fetch, no upload or processing call happens (the only event is the listing
itself), all three ledger files and the local directory are unchanged, and no
restart is triggered. -/
theorem rerun_with_uploaded_set_is_noop (rem : Remote) (now : String) (rs : RunState)
    (items : List Item)
    (hlist : rem.listing (resolveCheckpoint now rs.checkpoint).1 = .ok items)
    (hall : ∀ it ∈ items, it.id ∈ load_uploaded_files rs.ledgers.uploadedFile) :
    mainRun rem now rs =
      (false, { rs with checkpoint := (resolveCheckpoint now rs.checkpoint).2 },
       items.map fun _ => .skippedUploaded,
       [.listFiles (resolveCheckpoint now rs.checkpoint).1]) := by
  unfold mainRun
  simp only [hlist]
  by_cases he : items.isEmpty
  · simp [he, List.isEmpty_iff.mp he]
  · simp only [he, if_false, Bool.false_eq_true]
    rw [runItems_all_skip rem items _ hall]
    simp

/-- Witness for C5: with `f1` pre-recorded in the Uploaded ledger, the run
over the one-file listing changes nothing and only performs the listing. -/
theorem rerun_with_uploaded_set_is_noop_witness :
    mainRun happyRemote "now0"
      { checkpoint := some "cp0",
        ledgers := { uploadedFile := some ["f1"], failedFile := none, unsupportedFile := none },
        disk := [] }
    = (false,
       { checkpoint := some "cp0",
         ledgers := { uploadedFile := some ["f1"], failedFile := none, unsupportedFile := none },
         disk := [] },
       [.skippedUploaded], [.listFiles "cp0"]) :=
  rerun_with_uploaded_set_is_noop happyRemote "now0" _ [{ id := "f1", name := "report" }]
    rfl (by decide)

/-- Helper: the per-file handler either re-raises (`aborted`, only possible
when one of the two locals is unbound) or swallows the exception. -/
theorem handleItemError_outcome (st : LoopState) (e : PyErr) :
    (handleItemError st e).1 = .aborted .nameError ∨ (handleItemError st e).1 = .failedException e := by
  unfold handleItemError
  rcases st.fileName with _ | fn
  · exact Or.inl rfl
  · rcases st.localFileName with _ | lfn
    · exact Or.inl rfl
    · by_cases hd : lfn ∈ st.disk <;> simp [hd]

/-- Helper: when the handler aborts, one of the two Python locals `file_name`
and `local_file_name` was still unbound. -/
theorem handleItemError_abort_unbound (st : LoopState) (e : PyErr)
    (h : ((handleItemError st e).1).isAborted = true) :
    st.fileName = none ∨ st.localFileName = none := by
  by_contra hc
  push_neg at hc
  obtain ⟨h1, h2⟩ := hc
  rcases hf : st.fileName with _ | fn
  · exact h1 hf
  · rcases hl : st.localFileName with _ | lfn
    · exact h2 hl
    · unfold handleItemError at h
      rw [hf, hl] at h
      by_cases hd : lfn ∈ st.disk <;> simp [hd, Outcome.isAborted] at h

/-- Helper: the handler emits at most a single `deleteLocal` event, for the
file named by `local_file_name`. -/
theorem handleItemError_evs (st : LoopState) (e : PyErr) :
    (handleItemError st e).2.2 = []
    ∨ ∃ lfn, st.localFileName = some lfn ∧ (handleItemError st e).2.2 = [.deleteLocal lfn] := by
  unfold handleItemError
  rcases st.fileName with _ | fn
  · exact Or.inl rfl
  · rcases hl : st.localFileName with _ | lfn
    · exact Or.inl rfl
    · by_cases hd : lfn ∈ st.disk
      · exact Or.inr ⟨lfn, rfl, by simp [hd]⟩
      · simp [hd]

/-- Helper: after the handler runs, the file named by `local_file_name` is
not on disk (it is removed when present), provided `file_name` is bound so
the handler actually reaches the removal. -/
theorem handleItemError_disk (st : LoopState) (e : PyErr) (lfn : String)
    (hf : st.fileName.isSome = true) (hl : st.localFileName = some lfn) :
    lfn ∉ (handleItemError st e).2.1.disk := by
  unfold handleItemError
  rcases hfn : st.fileName with _ | fn
  · rw [hfn] at hf; simp at hf
  · rw [hl]
    by_cases hd : lfn ∈ st.disk
    · simp [hd, List.mem_filter]
    · simp [hd]

/-- Helper: facts about a branch that ends in the per-file handler after some
prefix of events, when both Python locals are bound in the handler's state:
the exception does not escape, the outcome is none of the four recorded ones,
any file created in the prefix is gone from disk afterwards, and the branch
appends to no ledger. -/
theorem withEvents_handler_facts (pre : List Event) (st' : LoopState) (e : PyErr)
    (hf : st'.fileName.isSome = true)
    (lfn : String) (hl : st'.localFileName = some lfn)
    (hcre : ∀ p, Event.createLocal p ∈ pre → p = lfn)
    (hnap : ∀ s i, Event.appendLedger s i ∉ pre) :
    ((withEvents pre (handleItemError st' e)).1).isAborted = false
    ∧ ((withEvents pre (handleItemError st' e)).1 ≠ .failedUpload
       ∧ (withEvents pre (handleItemError st' e)).1 ≠ .failedProcessing
       ∧ (withEvents pre (handleItemError st' e)).1 ≠ .unsupported
       ∧ (withEvents pre (handleItemError st' e)).1 ≠ .uploadedOk)
    ∧ (∀ p, Event.createLocal p ∈ (withEvents pre (handleItemError st' e)).2.2 →
        p ∉ (withEvents pre (handleItemError st' e)).2.1.disk)
    ∧ (∀ s i, Event.appendLedger s i ∉ (withEvents pre (handleItemError st' e)).2.2) := by
  have hdisk := handleItemError_disk st' e lfn hf hl
  refine ⟨?_, ?_, ?_, ?_⟩
  · by_contra h
    rw [Bool.not_eq_false] at h
    have := handleItemError_abort_unbound st' e (by simpa [withEvents] using h)
    rcases this with h' | h'
    · rw [h'] at hf; simp at hf
    · rw [h'] at hl; simp at hl
  · rcases handleItemError_outcome st' e with ho | ho <;> simp [withEvents, ho]
  · intro p hp
    simp only [withEvents, List.mem_append] at hp
    rcases hp with hp | hp
    · rw [hcre p hp]
      simpa [withEvents] using hdisk
    · rcases handleItemError_evs st' e with he | ⟨lfn', _, he⟩ <;> rw [he] at hp <;> simp at hp
  · intro s i hp
    simp only [withEvents, List.mem_append] at hp
    rcases hp with hp | hp
    · exact hnap s i hp
    · rcases handleItemError_evs st' e with he | ⟨lfn', _, he⟩ <;> rw [he] at hp <;> simp at hp


/-- Helper: the full conjunction of per-iteration facts for a branch that
ends in the per-file handler with both locals bound, with the escape
consequent `C` and the metadata hypothesis shape `E` left abstract so the
lemma unifies against any such branch of the loop body. -/
theorem handlerBranch_conj (pre : List Event) (st' : LoopState) (e : PyErr)
    (C : Prop) (E : String → String → Prop)
    (hf : st'.fileName.isSome = true)
    (lfn : String) (hl : st'.localFileName = some lfn)
    (hcre : ∀ p, Event.createLocal p ∈ pre → p = lfn)
    (hnap : ∀ s i, Event.appendLedger s i ∉ pre) :
    (((withEvents pre (handleItemError st' e)).1).isAborted = true → C)
    ∧ (((withEvents pre (handleItemError st' e)).1 = .failedUpload
        ∨ (withEvents pre (handleItemError st' e)).1 = .failedProcessing
        ∨ (withEvents pre (handleItemError st' e)).1 = .unsupported) →
        ledgerRecordedBeforeDeletes (withEvents pre (handleItemError st' e)).2.2 = true)
    ∧ ((withEvents pre (handleItemError st' e)).1 = .uploadedOk →
        ledgerRecordedBeforeDeletes (withEvents pre (handleItemError st' e)).2.2 = false)
    ∧ (∀ p, Event.createLocal p ∈ (withEvents pre (handleItemError st' e)).2.2 →
        p ∉ (withEvents pre (handleItemError st' e)).2.1.disk)
    ∧ (∀ mt fn, E mt fn →
        startswith mt "application/vnd.google-apps." = true →
        (∀ i, Event.appendLedger .unsupported i ∉ (withEvents pre (handleItemError st' e)).2.2)
        ∧ (withEvents pre (handleItemError st' e)).1 ≠ .unsupported) := by
  have W := withEvents_handler_facts pre st' e hf lfn hl hcre hnap
  refine ⟨fun h => absurd h (by simp [W.1]), fun h => ?_,
    fun h => absurd h W.2.1.2.2.2, W.2.2.1,
    fun mt fn _ _ => ⟨fun i => W.2.2.2 .unsupported i, W.2.1.2.2.1⟩⟩
  rcases h with h | h | h
  · exact absurd h W.2.1.1
  · exact absurd h W.2.1.2.1
  · exact absurd h W.2.1.2.2.1

/-- Master case analysis of one per-file loop iteration, for an arbitrary
`call_catalog_api` implementation: (i) an exception escapes the per-file
boundary only when one of the handler's two locals is unbound; (ii) on the
Failed and Unsupported outcomes every local-file deletion is preceded by a
ledger append; (iii) on full success the deletion precedes the ledger append;
(iv) a file created by the iteration is gone from disk afterwards; (v) a
descriptor whose MIME type has the editor prefix is never appended to the
Unsupported ledger. -/
theorem processItemWith_facts (call : HttpResponse → Except PyErr Json)
    (rem : Remote) (st : LoopState) (item : Item) :
    (((processItemWith call rem st item).1).isAborted = true →
        st.fileName = none ∨ st.localFileName = none)
    ∧ (((processItemWith call rem st item).1 = .failedUpload
        ∨ (processItemWith call rem st item).1 = .failedProcessing
        ∨ (processItemWith call rem st item).1 = .unsupported) →
        ledgerRecordedBeforeDeletes (processItemWith call rem st item).2.2 = true)
    ∧ ((processItemWith call rem st item).1 = .uploadedOk →
        ledgerRecordedBeforeDeletes (processItemWith call rem st item).2.2 = false)
    ∧ (∀ p, Event.createLocal p ∈ (processItemWith call rem st item).2.2 →
        p ∉ (processItemWith call rem st item).2.1.disk)
    ∧ (∀ mt fn, rem.metadata item.id = .ok (mt, fn) →
        startswith mt "application/vnd.google-apps." = true →
        (∀ i, Event.appendLedger .unsupported i ∉ (processItemWith call rem st item).2.2)
        ∧ (processItemWith call rem st item).1 ≠ .unsupported) := by
  unfold processItemWith
  by_cases hskip : item.id ∈ load_uploaded_files st.ledgers.uploadedFile
  · simp only [if_pos hskip]
    refine ⟨?_, ?_, ?_, ?_, ?_⟩ <;>
      simp [Outcome.isAborted, ledgerRecordedBeforeDeletes, ledgerRecordedBeforeDeletesAux]
  · simp only [if_neg hskip]
    rcases hmeta : rem.metadata item.id with e | ⟨mt, fn⟩ <;> simp only []
    · refine ⟨?_, ?_, ?_, ?_, ?_⟩
      · intro h
        exact handleItemError_abort_unbound st e (by simpa [withEvents] using h)
      · intro h
        rcases handleItemError_outcome st e with ho | ho <;> simp [withEvents, ho] at h
      · intro h
        rcases handleItemError_outcome st e with ho | ho <;> simp [withEvents, ho] at h
      · intro p hp
        rcases handleItemError_evs st e with he | ⟨lfn, _, he⟩ <;>
          simp [withEvents, he] at hp
      · intro mt fn hm
        exact absurd hm (by simp)
    · by_cases hfold : mt = "application/vnd.google-apps.folder"
      · simp only [if_pos hfold]
        refine ⟨?_, ?_, ?_, ?_, ?_⟩ <;>
          simp [Outcome.isAborted, ledgerRecordedBeforeDeletes, ledgerRecordedBeforeDeletesAux]
      · simp only [if_neg hfold]
        by_cases htype : get_file_type (if startswith mt "application/vnd.google-apps."
            then "application/pdf" else mt) = "none"
        · simp only [if_pos htype]
          refine ⟨?_, ?_, ?_, ?_, ?_⟩
          · simp [Outcome.isAborted]
          · intro _
            simp [ledgerRecordedBeforeDeletes, ledgerRecordedBeforeDeletesAux]
          · simp
          · intro p hp
            simp at hp
          · intro mt' fn' hm hpre
            simp only [Except.ok.injEq, Prod.mk.injEq] at hm
            obtain ⟨h1, h2⟩ := hm
            subst h1
            rw [hpre] at htype
            simp at htype
            exact absurd htype (by decide)
        · simp only [if_neg htype]
          rcases hdl : rem.download item.id with e | u <;> simp only []
          · refine handlerBranch_conj _ _ _ _ _ ?_ (if startswith mt "application/vnd.google-apps." then fn ++ ".pdf" else fn) ?_ ?_ ?_
            · simp
            · rfl
            · intro p hp
              simpa using hp
            · intro s i hip
              simp at hip
          · rcases hup : rem.uploadHttp item.id with e | resp <;> simp only []
            · refine handlerBranch_conj _ _ _ _ _ ?_ (if startswith mt "application/vnd.google-apps." then fn ++ ".pdf" else fn) ?_ ?_ ?_
              · simp
              · rfl
              · intro p hp
                simpa using hp
              · intro s i hip
                simp at hip
            · rcases hc : call resp with e | body <;> simp only []
              · refine handlerBranch_conj _ _ _ _ _ ?_ (if startswith mt "application/vnd.google-apps." then fn ++ ".pdf" else fn) ?_ ?_ ?_
                · simp
                · rfl
                · intro p hp
                  simpa using hp
                · intro s i hip
                  simp at hip
              · rcases hx : extractFileUid body with e | uid <;> simp only []
                · refine handlerBranch_conj _ _ _ _ _ ?_ (if startswith mt "application/vnd.google-apps." then fn ++ ".pdf" else fn) ?_ ?_ ?_
                  · simp
                  · rfl
                  · intro p hp
                    simpa using hp
                  · intro s i hip
                    simp at hip
                · by_cases huid : uid.truthy = false
                  · simp only [if_pos huid]
                    refine ⟨?_, ?_, ?_, ?_, ?_⟩
                    · simp [Outcome.isAborted]
                    · intro _
                      simp [ledgerRecordedBeforeDeletes, ledgerRecordedBeforeDeletesAux]
                    · simp
                    · intro p hp
                      simp at hp
                      simp [hp, List.mem_filter]
                    · intro mt' fn' _ _
                      exact ⟨fun i => by simp, by simp⟩
                  · simp only [if_neg huid]
                    rcases hph : rem.processHttp uid with e | presp <;> simp only []
                    · refine handlerBranch_conj _ _ _ _ _ ?_ (if startswith mt "application/vnd.google-apps." then fn ++ ".pdf" else fn) ?_ ?_ ?_
                      · simp
                      · rfl
                      · intro p hp
                        simpa using hp
                      · intro s i hip
                        simp at hip
                    · rcases hc2 : call presp with e | pdata <;> simp only []
                      · refine handlerBranch_conj _ _ _ _ _ ?_ (if startswith mt "application/vnd.google-apps." then fn ++ ".pdf" else fn) ?_ ?_ ?_
                        · simp
                        · rfl
                        · intro p hp
                          simpa using hp
                        · intro s i hip
                          simp at hip
                      · rcases hx2 : extractProcessStatus pdata with e | pst <;> simp only []
                        · refine handlerBranch_conj _ _ _ _ _ ?_ (if startswith mt "application/vnd.google-apps." then fn ++ ".pdf" else fn) ?_ ?_ ?_
                          · simp
                          · rfl
                          · intro p hp
                            simpa using hp
                          · intro s i hip
                            simp at hip
                        · by_cases hst : pst.truthy = false
                          · simp only [if_pos hst]
                            refine ⟨?_, ?_, ?_, ?_, ?_⟩
                            · simp [Outcome.isAborted]
                            · intro _
                              simp [ledgerRecordedBeforeDeletes, ledgerRecordedBeforeDeletesAux]
                            · simp
                            · intro p hp
                              simp at hp
                              simp [hp, List.mem_filter]
                            · intro mt' fn' _ _
                              exact ⟨fun i => by simp, by simp⟩
                          · simp only [if_neg hst]
                            refine ⟨?_, ?_, ?_, ?_, ?_⟩
                            · simp [Outcome.isAborted]
                            · intro h
                              rcases h with h | h | h <;> simp at h
                            · intro _
                              simp [ledgerRecordedBeforeDeletes, ledgerRecordedBeforeDeletesAux]
                            · intro p hp
                              simp at hp
                              simp [hp, List.mem_filter]
                            · intro mt' fn' _ _
                              exact ⟨fun i => by simp, by simp⟩

/-- The master per-iteration facts, specialized to the main.py entry point. -/
theorem processItem_facts (rem : Remote) (st : LoopState) (item : Item) :
    (((processItem rem st item).1).isAborted = true →
        st.fileName = none ∨ st.localFileName = none)
    ∧ (((processItem rem st item).1 = .failedUpload
        ∨ (processItem rem st item).1 = .failedProcessing
        ∨ (processItem rem st item).1 = .unsupported) →
        ledgerRecordedBeforeDeletes (processItem rem st item).2.2 = true)
    ∧ ((processItem rem st item).1 = .uploadedOk →
        ledgerRecordedBeforeDeletes (processItem rem st item).2.2 = false)
    ∧ (∀ p, Event.createLocal p ∈ (processItem rem st item).2.2 →
        p ∉ (processItem rem st item).2.1.disk)
    ∧ (∀ mt fn, rem.metadata item.id = .ok (mt, fn) →
        startswith mt "application/vnd.google-apps." = true →
        (∀ i, Event.appendLedger .unsupported i ∉ (processItem rem st item).2.2)
        ∧ (processItem rem st item).1 ≠ .unsupported) := by
  unfold processItem
  exact processItemWith_facts call_catalog_api rem st item

/-- An environment whose metadata fetch raises; everything downstream is
unreachable for it. -/
def metaFailRemote : Remote where
  listing := fun _ => .ok [{ id := "f1", name := "report" }]
  metadata := fun _ => .error .apiError
  download := fun _ => .error .apiError
  uploadHttp := fun _ => .error .requestException
  processHttp := fun _ => .error .requestException

/-- An environment whose listing raises. -/
def listFailRemote : Remote where
  listing := fun _ => .error .httpError
  metadata := fun _ => .error .apiError
  download := fun _ => .error .apiError
  uploadHttp := fun _ => .error .requestException
  processHttp := fun _ => .error .requestException

/-- C2 counterexample: when the metadata fetch of the first processed
descriptor raises, the per-file handler's log f-string references the still
unbound local `file_name`, the resulting `NameError` escapes the per-file
loop, and the run boundary catches it and restarts the whole run — so a
per-file error does propagate out of the loop, and a non-listing error also
aborts and restarts the run. -/
theorem per_file_exception_escapes_counterexample :
    (processItem metaFailRemote (initLoopState emptyLedgers) { id := "f1", name := "report" }).1
      = .aborted .nameError
    ∧ (mainRun metaFailRemote "now0"
        { checkpoint := some "cp0", ledgers := emptyLedgers, disk := [] }).1 = true :=
  ⟨rfl, rfl⟩

/-- C2 amended: a per-file exception is caught at the per-file boundary and
the run continues whenever the iteration's two handler locals are already
bound (which holds as soon as any earlier iteration reached the metadata
step); an escape is only possible when one of them is still unbound, and a
listing-phase error always aborts and restarts the entire run. -/
theorem per_file_errors_contained :
    (∀ rem st item, st.fileName.isSome = true → st.localFileName.isSome = true →
      ((processItem rem st item).1).isAborted = false)
    ∧ (∀ rem st item, ((processItem rem st item).1).isAborted = true →
      st.fileName = none ∨ st.localFileName = none)
    ∧ (∀ rem now rs e, rem.listing (resolveCheckpoint now rs.checkpoint).1 = .error e →
      (mainRun rem now rs).1 = true) := by
  refine ⟨?_, ?_, ?_⟩
  · intro rem st item h1 h2
    by_contra hc
    rw [Bool.not_eq_false] at hc
    rcases (processItem_facts rem st item).1 hc with h | h
    · rw [h] at h1
      simp at h1
    · rw [h] at h2
      simp at h2
  · intro rem st item h
    exact (processItem_facts rem st item).1 h
  · intro rem now rs e hl
    unfold mainRun
    simp only [hl]

/-- Witness for C2 amended: with both locals bound a metadata failure is
swallowed at the per-file boundary, and a listing failure restarts the run. -/
theorem per_file_errors_contained_witness :
    ((processItem metaFailRemote
        { ledgers := emptyLedgers, disk := [], fileName := some "prev", localFileName := some "prev" }
        { id := "f1", name := "report" }).1).isAborted = false
    ∧ (mainRun listFailRemote "now0"
        { checkpoint := none, ledgers := emptyLedgers, disk := [] }).1 = true :=
  ⟨per_file_errors_contained.1 metaFailRemote _ _ rfl rfl,
   per_file_errors_contained.2.2 listFailRemote "now0" _ .httpError rfl⟩

/-- C3 counterexample: on a fully successful iteration main.py executes
`os.remove(local_file_name)` (line 129) before
`append_file_id(file_id, UPLOADED_FILE_PATH)` (line 130): the concrete event
trace deletes the local file strictly before the Uploaded append, so the
ledger outcome is not recorded by the time the file is deleted. -/
theorem delete_before_ledger_counterexample :
    (processItem happyRemote (initLoopState emptyLedgers) { id := "f1", name := "report" }).1
      = .uploadedOk
    ∧ (processItem happyRemote (initLoopState emptyLedgers) { id := "f1", name := "report" }).2.2
      = [.fetchMeta "f1", .createLocal "report", .callUpload "f1", .callProcess,
         .deleteLocal "report", .appendLedger .uploaded "f1"]
    ∧ ledgerRecordedBeforeDeletes
        (processItem happyRemote (initLoopState emptyLedgers) { id := "f1", name := "report" }).2.2
      = false :=
  ⟨rfl, rfl, rfl⟩

/-- C3 amended: in every iteration the Failed/Unsupported appends are
recorded before any deletion of the local file, and the file created by an
iteration is always gone from disk when the iteration completes — but on
full success the local file is deleted strictly before the Uploaded append
(delete-then-append, the reverse of the claimed order). -/
theorem ledger_order_per_iteration (rem : Remote) (st : LoopState) (item : Item) :
    (((processItem rem st item).1 = .failedUpload
      ∨ (processItem rem st item).1 = .failedProcessing
      ∨ (processItem rem st item).1 = .unsupported) →
      ledgerRecordedBeforeDeletes (processItem rem st item).2.2 = true)
    ∧ ((processItem rem st item).1 = .uploadedOk →
      ledgerRecordedBeforeDeletes (processItem rem st item).2.2 = false)
    ∧ (∀ p, Event.createLocal p ∈ (processItem rem st item).2.2 →
      p ∉ (processItem rem st item).2.1.disk) :=
  ⟨(processItem_facts rem st item).2.1,
   (processItem_facts rem st item).2.2.1,
   (processItem_facts rem st item).2.2.2.1⟩

/-- An environment whose upload call returns HTTP 200 with an empty `file`
object, so the extracted fileUid is `None` (Python-falsy). -/
def nullUidRemote : Remote where
  listing := fun _ => .ok [{ id := "f1", name := "report" }]
  metadata := fun _ => .ok ("application/pdf", "report")
  download := fun _ => .ok ()
  uploadHttp := fun _ => .ok { status := 200, body := .obj [("file", .obj [])] }
  processHttp := fun _ => .error .requestException

/-- Witness for C3 amended: on the concrete null-fileUid run the Failed
append precedes the deletion; on the concrete successful run the deletion
precedes the append and the created file is gone from disk. -/
theorem ledger_order_per_iteration_witness :
    ledgerRecordedBeforeDeletes
      (processItem nullUidRemote (initLoopState emptyLedgers) { id := "f1", name := "report" }).2.2
      = true
    ∧ ledgerRecordedBeforeDeletes
        (processItem happyRemote (initLoopState emptyLedgers) { id := "f1", name := "report" }).2.2
      = false
    ∧ "report" ∉ (processItem happyRemote (initLoopState emptyLedgers)
        { id := "f1", name := "report" }).2.1.disk :=
  ⟨(ledger_order_per_iteration nullUidRemote _ _).1 (Or.inl rfl),
   (ledger_order_per_iteration happyRemote _ _).2.1 rfl,
   (ledger_order_per_iteration happyRemote _ _).2.2 "report" (by decide)⟩

/-- C8: whatever the outcome of an iteration (success, upload failure,
processing failure, or an exception routed to the handler), a local
transient file created by that iteration does not exist on disk when the
iteration completes. -/
theorem transient_file_never_persists (rem : Remote) (st : LoopState) (item : Item)
    (p : String) (h : Event.createLocal p ∈ (processItem rem st item).2.2) :
    p ∉ (processItem rem st item).2.1.disk :=
  (processItem_facts rem st item).2.2.2.1 p h

/-- Witness for C8: the successful run creates `report` and ends with it off
disk. -/
theorem transient_file_never_persists_witness :
    Event.createLocal "report" ∈ (processItem happyRemote (initLoopState emptyLedgers)
        { id := "f1", name := "report" }).2.2
    ∧ "report" ∉ (processItem happyRemote (initLoopState emptyLedgers)
        { id := "f1", name := "report" }).2.1.disk :=
  ⟨by decide, transient_file_never_persists happyRemote _ _ "report" (by decide)⟩

/-- An environment with a Google Docs editor document: metadata reports an
editor MIME type, export/download and both catalog calls succeed. -/
def editorRemote : Remote where
  listing := fun _ => .ok [{ id := "g1", name := "notes" }]
  metadata := fun _ => .ok ("application/vnd.google-apps.document", "notes")
  download := fun _ => .ok ()
  uploadHttp := fun _ => .ok { status := 200, body := okUploadBody }
  processHttp := fun _ => .ok { status := 200, body := okProcessBody }

/-- C10: a non-folder descriptor whose MIME type carries the editor prefix
has its MIME type reassigned to `application/pdf` before classification
(which classifies to `FILE_TYPE_PDF`), so the Unsupported branch is
unreachable for it: the iteration never appends the id to the Unsupported
ledger and never produces the Unsupported outcome. -/
theorem editor_docs_never_unsupported (rem : Remote) (st : LoopState) (item : Item)
    (mt fn : String)
    (hmeta : rem.metadata item.id = .ok (mt, fn))
    (hpre : startswith mt "application/vnd.google-apps." = true) :
    get_file_type "application/pdf" = "FILE_TYPE_PDF"
    ∧ (∀ i, Event.appendLedger .unsupported i ∉ (processItem rem st item).2.2)
    ∧ (processItem rem st item).1 ≠ .unsupported :=
  ⟨rfl,
   ((processItem_facts rem st item).2.2.2.2 mt fn hmeta hpre).1,
   ((processItem_facts rem st item).2.2.2.2 mt fn hmeta hpre).2⟩

/-- Witness for C10: the concrete editor document `g1` is processed to full
success and its id never reaches the Unsupported ledger. -/
theorem editor_docs_never_unsupported_witness :
    (∀ i, Event.appendLedger .unsupported i ∉ (processItem editorRemote
        (initLoopState emptyLedgers) { id := "g1", name := "notes" }).2.2)
    ∧ (processItem editorRemote (initLoopState emptyLedgers)
        { id := "g1", name := "notes" }).1 ≠ .unsupported :=
  ⟨(editor_docs_never_unsupported editorRemote _ _ _ _ rfl rfl).2.1,
   (editor_docs_never_unsupported editorRemote _ _ _ _ rfl rfl).2.2⟩

/-- An environment whose upload call returns HTTP 200 whose `file` field is a
JSON array, so the second `.get` of the fileUid extraction raises
`AttributeError`. -/
def badShapeRemote : Remote where
  listing := fun _ => .ok [{ id := "f1", name := "report" }]
  metadata := fun _ => .ok ("application/pdf", "report")
  download := fun _ => .ok ()
  uploadHttp := fun _ => .ok { status := 200, body := .obj [("file", .arr [])] }
  processHttp := fun _ => .error .requestException

/-- C4 counterexample: an upload response that lacks any resolvable fileUid
because its `file` field is a list makes the extraction itself raise
`AttributeError`; the iteration then takes the generic exception path, and
`f1` is NOT appended to the Failed set (the Failed ledger file is still
absent afterwards), contradicting the claim that every response lacking a
resolvable fileUid routes the id to Failed. -/
theorem missing_uid_not_always_failed_counterexample :
    extractFileUid (.obj [("file", .arr [])]) = .error .attributeError
    ∧ (processItem badShapeRemote (initLoopState emptyLedgers) { id := "f1", name := "report" }).1
      = .failedException .attributeError
    ∧ (processItem badShapeRemote (initLoopState emptyLedgers)
        { id := "f1", name := "report" }).2.1.ledgers.failedFile = none :=
  ⟨rfl, rfl, rfl⟩

/-- C4 amended: when the fileUid extraction itself succeeds as dictionary
lookups but yields an absent/empty (Python-falsy) value, the id is appended
to the Failed set, the local file is removed, the processing trigger is
never invoked, and the loop continues; likewise a processing response whose
process-status extraction succeeds with a falsy value routes the id to
Failed and removes the local file.  (Responses whose malformed shape makes
the extraction raise go to the generic per-file handler instead and reach no
ledger.) -/
theorem missing_uid_or_status_routed_to_failed (rem : Remote) (st : LoopState) (item : Item)
    (mt fn : String) (resp : HttpResponse) (body uid : Json)
    (h0 : item.id ∉ load_uploaded_files st.ledgers.uploadedFile)
    (hmeta : rem.metadata item.id = .ok (mt, fn))
    (hfold : mt ≠ "application/vnd.google-apps.folder")
    (htype : get_file_type (if startswith mt "application/vnd.google-apps."
        then "application/pdf" else mt) ≠ "none")
    (hdl : rem.download item.id = .ok ())
    (hup : rem.uploadHttp item.id = .ok resp)
    (hcall : call_catalog_api resp = .ok body)
    (hx : extractFileUid body = .ok uid) :
    (uid.truthy = false →
      (processItem rem st item).1 = .failedUpload
      ∧ (processItem rem st item).2.1.ledgers.failedFile
          = append_file_id item.id st.ledgers.failedFile
      ∧ (if startswith mt "application/vnd.google-apps." then fn ++ ".pdf" else fn)
          ∉ (processItem rem st item).2.1.disk
      ∧ Event.callProcess ∉ (processItem rem st item).2.2)
    ∧ (∀ (presp : HttpResponse) (pdata pst : Json),
      uid.truthy = true →
      rem.processHttp uid = .ok presp →
      call_catalog_api presp = .ok pdata →
      extractProcessStatus pdata = .ok pst →
      pst.truthy = false →
      (processItem rem st item).1 = .failedProcessing
      ∧ (processItem rem st item).2.1.ledgers.failedFile
          = append_file_id item.id st.ledgers.failedFile
      ∧ (if startswith mt "application/vnd.google-apps." then fn ++ ".pdf" else fn)
          ∉ (processItem rem st item).2.1.disk) := by
  constructor
  · intro huid
    show _ ∧ _ ∧ _ ∧ _
    unfold processItem processItemWith
    simp [h0, hmeta, hfold, htype, hdl, hup, hcall, hx, huid, List.mem_filter]
  · intro presp pdata pst huid hph hcall2 hx2 hst
    unfold processItem processItemWith
    simp [h0, hmeta, hfold, htype, hdl, hup, hcall, hx, huid, hph, hcall2, hx2, hst,
      List.mem_filter]

/-- An environment where upload succeeds with a resolvable fileUid but the
processing response carries an empty per-file object, so the extracted
process-status is `None` (Python-falsy). -/
def noStatusRemote : Remote where
  listing := fun _ => .ok [{ id := "f1", name := "report" }]
  metadata := fun _ => .ok ("application/pdf", "report")
  download := fun _ => .ok ()
  uploadHttp := fun _ => .ok { status := 200, body := okUploadBody }
  processHttp := fun _ => .ok { status := 200, body := .obj [("files", .arr [.obj []])] }

/-- Witness for C4 amended: the concrete null-fileUid run routes `f1` to the
Failed ledger without invoking the trigger, and the concrete empty
process-status run routes `f1` to the Failed ledger as well. -/
theorem missing_uid_or_status_routed_to_failed_witness :
    ((processItem nullUidRemote (initLoopState emptyLedgers) { id := "f1", name := "report" }).1
        = .failedUpload
      ∧ (processItem nullUidRemote (initLoopState emptyLedgers)
          { id := "f1", name := "report" }).2.1.ledgers.failedFile
        = append_file_id "f1" none
      ∧ "report" ∉ (processItem nullUidRemote (initLoopState emptyLedgers)
          { id := "f1", name := "report" }).2.1.disk
      ∧ Event.callProcess ∉ (processItem nullUidRemote (initLoopState emptyLedgers)
          { id := "f1", name := "report" }).2.2)
    ∧ ((processItem noStatusRemote (initLoopState emptyLedgers) { id := "f1", name := "report" }).1
        = .failedProcessing
      ∧ (processItem noStatusRemote (initLoopState emptyLedgers)
          { id := "f1", name := "report" }).2.1.ledgers.failedFile
        = append_file_id "f1" none
      ∧ "report" ∉ (processItem noStatusRemote (initLoopState emptyLedgers)
          { id := "f1", name := "report" }).2.1.disk) :=
  ⟨(missing_uid_or_status_routed_to_failed nullUidRemote (initLoopState emptyLedgers)
      { id := "f1", name := "report" } "application/pdf" "report"
      { status := 200, body := .obj [("file", .obj [])] } (.obj [("file", .obj [])]) .null
      (by decide) rfl (by decide) (by decide) rfl rfl rfl rfl).1 rfl,
   (missing_uid_or_status_routed_to_failed noStatusRemote (initLoopState emptyLedgers)
      { id := "f1", name := "report" } "application/pdf" "report"
      { status := 200, body := okUploadBody } okUploadBody (.str "u1")
      (by decide) rfl (by decide) (by decide) rfl rfl rfl rfl).2
      { status := 200, body := .obj [("files", .arr [.obj []])] }
      (.obj [("files", .arr [.obj []])]) .null rfl rfl rfl rfl rfl⟩
